import Mathlib

/-!
Verification of the Sensor Tower MCP custom-fields tool provider
(src/sensortower_mcp/tools/custom_fields.py).

The module registers three tools with a FastMCP host and translates each
invocation into a single outbound HTTP call through the base class's
request facility.  We embed the module shallowly:

* JSON values decoded by the (external) JSON codec are the inductive `Json`.
* The external request facility (`make_request` for reads,
  `make_post_request` for writes, both supplied by the unshown base class)
  is a `Transport` record, abstract in its error type.
* The Python standard library parser `json.loads` is external to the
  repository; the operations are parameterized by a `jsonLoads` function
  returning either a decoded value or a diagnostic message, exactly the
  interface the source consumes (`json.JSONDecodeError` carries `str(e)`).
* Each operation returns the list of outbound requests it issues together
  with its result, so that "exactly one request", "no request", and
  "propagated unchanged" are directly statable.
-/

namespace SensorTower

/-- JSON values as decoded by the JSON codec at the component boundary.
Objects are ordered key/value lists, mirroring decoded dictionaries
round-tripped verbatim by the source. -/
inductive Json where
  | null : Json
  | bool (b : Bool) : Json
  | num (n : Int) : Json
  | str (s : String) : Json
  | arr (elems : List Json) : Json
  | obj (fields : List (String × Json)) : Json
  deriving Repr

/-- Key lookup in a decoded JSON object (first occurrence); `none` on
non-objects and missing keys. -/
def Json.lookup : Json → String → Option Json
  | .obj fields, k => go fields k
  | _, _ => none
where
  go : List (String × Json) → String → Option Json
  | [], _ => none
  | (k', v) :: rest, k => if k' = k then some v else go rest k

/-- One outbound HTTP request as issued through the base class:
`make_request path params` for reads, `make_post_request path body`
for writes. -/
inductive Request where
  | get (path : String) (params : List (String × String)) : Request
  | post (path : String) (body : Json) : Request
  deriving Repr

/-- The external request-execution facility supplied by the base class,
abstract in its failure type. `make_request` performs a read with query
parameters, `make_post_request` a write with a JSON body. -/
structure Transport (ε : Type) where
  make_request : String → List (String × String) → Except ε Json
  make_post_request : String → Json → Except ε Json

/-- Failures surfaced by an operation: a locally raised ToolError (only
the JSON-parse failure of the creation operation) or a failure of the
external request facility, carried unchanged. -/
inductive OpError (ε : Type) where
  | toolError (msg : String) : OpError ε
  | transport (e : ε) : OpError ε
  deriving Repr

/-- get_custom_fields_values: builds the query-parameter mapping with
"term" only when the argument is truthy (present and non-empty, Python
`if term:`) and issues one read request to
/v1/custom_fields_filter/fields_values.  Returns the requests issued and
the decoded response (or propagated failure). -/
def get_custom_fields_values {ε : Type} (tp : Transport ε) (term : Option String) :
    List Request × Except (OpError ε) Json :=
  let params : List (String × String) :=
    match term with
    | some t => if t = "" then [] else [("term", t)]
    | none => []
  ([Request.get "/v1/custom_fields_filter/fields_values" params],
   (tp.make_request "/v1/custom_fields_filter/fields_values" params).mapError OpError.transport)

/-- create_custom_fields_filter: parses the custom_fields string with the
external JSON parser; on failure raises a ToolError embedding the parser
diagnostic without contacting the network; on success wraps the parsed
value as the "custom_fields" member of the JSON body of one write request
to /v1/custom_fields_filter. -/
def create_custom_fields_filter {ε : Type} (jsonLoads : String → Except String Json)
    (tp : Transport ε) (custom_fields : String) :
    List Request × Except (OpError ε) Json :=
  match jsonLoads custom_fields with
  | .error e =>
      ([], .error (.toolError ("Invalid JSON for custom_fields: " ++ e)))
  | .ok fields_list =>
      let body := Json.obj [("custom_fields", fields_list)]
      ([Request.post "/v1/custom_fields_filter" body],
       (tp.make_post_request "/v1/custom_fields_filter" body).mapError OpError.transport)

/-- show_custom_fields_filter: interpolates the identifier directly into
the path (Python f-string) and issues one read request with an empty
parameter mapping. -/
def show_custom_fields_filter {ε : Type} (tp : Transport ε) (filter_id : String) :
    List Request × Except (OpError ε) Json :=
  ([Request.get ("/v1/custom_fields_filter/" ++ filter_id) []],
   (tp.make_request ("/v1/custom_fields_filter/" ++ filter_id) []).mapError OpError.transport)

/-- Tool annotation metadata as passed to the registry (the annotations
mapping of the creation tool in the source). -/
structure ToolAnnotations where
  title : Option String
  readOnlyHint : Option Bool
  idempotentHint : Option Bool
  openWorldHint : Option Bool
  deriving Repr, DecidableEq

/-- One registration made with the host registry: tool name, title, and
optional annotation metadata. -/
structure ToolRegistration where
  name : String
  title : String
  annots : Option ToolAnnotations
  deriving Repr, DecidableEq

/-- Category label of the provider class (class attribute `category`). -/
def CustomFieldsTools.category : String := "CustomFields"

/-- register_tools: the three registrations made, in source order, with
their names, titles, and annotation metadata.  Only the creation tool
passes an annotations mapping. -/
def CustomFieldsTools.register_tools : List ToolRegistration :=
  [ ⟨"get_custom_fields_values", "Get Custom Fields Values", none⟩,
    ⟨"create_custom_fields_filter", "Create Custom Fields Filter",
      some ⟨some "Create Custom Fields Filter", some false, some false, some true⟩⟩,
    ⟨"show_custom_fields_filter", "Show Custom Fields Filter", none⟩ ]

/-- Extracts, from the requests issued by an operation, the element list
of the "custom_fields" member of the single write request's body, when
the trace has that shape. -/
def forwardedFields (reqs : List Request) : Option (List Json) :=
  match reqs with
  | [Request.post _ body] =>
      match body.lookup "custom_fields" with
      | some (Json.arr xs) => some xs
      | _ => none
  | _ => none

/-- Concrete transport that always succeeds, for witness evaluation. -/
def demoTransport : Transport String :=
  ⟨fun _ _ => .ok (Json.str "read-response"), fun _ _ => .ok (Json.str "write-response")⟩

/-- Concrete transport whose every request fails, for witness evaluation
of error propagation. -/
def failTransport : Transport String :=
  ⟨fun _ _ => .error "boom", fun _ _ => .error "boom"⟩

/-- Two well-formed custom field specifications: the first lacks the
optional exclude key, the second sets it to true. -/
def demoFields : List Json :=
  [ Json.obj [("name", Json.str "Earliest Release Date"), ("global", Json.bool true),
      ("values", Json.arr [Json.str "2026/01", Json.str "2026/02"])],
    Json.obj [("name", Json.str "Last 30 Days Revenue (WW)"), ("global", Json.bool true),
      ("values", Json.arr [Json.str "5K - 50K"]), ("exclude", Json.bool true)] ]

/-- Concrete parser instance that decodes any input to the demo array. -/
def demoLoads : String → Except String Json := fun _ => .ok (Json.arr demoFields)

/-- Concrete parser instance that fails with a typical decoder diagnostic. -/
def demoFailLoads : String → Except String Json :=
  fun _ => .error "Expecting value: line 1 column 2 (char 1)"

/-- Concrete parser instance that decodes any input to a non-array value. -/
def demoScalarLoads : String → Except String Json := fun _ => .ok (Json.num 5)

end SensorTower

namespace SensorTower

/-- C1: for every string that parses as a JSON array, the create-filter
operation issues exactly one write request to /v1/custom_fields_filter
whose body wraps the parsed array, order and content preserved, and
returns the decoded response of that request. -/
theorem create_filter_posts_parsed_array {ε : Type}
    (jsonLoads : String → Except String Json) (tp : Transport ε)
    (s : String) (elems : List Json)
    (h : jsonLoads s = .ok (Json.arr elems)) :
    create_custom_fields_filter jsonLoads tp s =
      ([Request.post "/v1/custom_fields_filter"
          (Json.obj [("custom_fields", Json.arr elems)])],
       (tp.make_post_request "/v1/custom_fields_filter"
          (Json.obj [("custom_fields", Json.arr elems)])).mapError OpError.transport) := by
  simp [create_custom_fields_filter, h]

/-- C1 witness: a concrete parse of a two-element array yields the single
expected write request and the transport's decoded response. -/
theorem create_filter_posts_parsed_array_witness :
    demoLoads "demo-input" = Except.ok (Json.arr demoFields) ∧
    create_custom_fields_filter demoLoads demoTransport "demo-input" =
      ([Request.post "/v1/custom_fields_filter"
          (Json.obj [("custom_fields", Json.arr demoFields)])],
       Except.ok (Json.str "write-response")) := by
  refine ⟨rfl, ?_⟩
  rw [create_filter_posts_parsed_array demoLoads demoTransport "demo-input" demoFields rfl]
  rfl

/-- C2: for every string the parser rejects, the create-filter operation
raises a ToolError embedding the parser diagnostic and issues no outbound
request at all. -/
theorem create_filter_parse_failure_no_request {ε : Type}
    (jsonLoads : String → Except String Json) (tp : Transport ε)
    (s e : String) (h : jsonLoads s = .error e) :
    create_custom_fields_filter jsonLoads tp s =
      ([], .error (.toolError ("Invalid JSON for custom_fields: " ++ e))) := by
  simp [create_custom_fields_filter, h]

/-- C2 witness: the malformed text from the spec produces the ToolError
with the diagnostic embedded and an empty request trace. -/
theorem create_filter_parse_failure_no_request_witness :
    demoFailLoads "\x7bnot json" = Except.error "Expecting value: line 1 column 2 (char 1)" ∧
    create_custom_fields_filter demoFailLoads demoTransport "\x7bnot json" =
      ([], Except.error (OpError.toolError
        "Invalid JSON for custom_fields: Expecting value: line 1 column 2 (char 1)")) := by
  refine ⟨rfl, ?_⟩
  rw [create_filter_parse_failure_no_request demoFailLoads demoTransport "\x7bnot json"
    "Expecting value: line 1 column 2 (char 1)" rfl]
  rfl

/-- C3: a non-empty term is sent as the single query parameter of the
read request to /v1/custom_fields_filter/fields_values; an absent or
empty term yields an empty parameter mapping on the same request. -/
theorem get_values_query_params {ε : Type} (tp : Transport ε)
    (term : String) (h : term ≠ "") :
    get_custom_fields_values tp (some term) =
      ([Request.get "/v1/custom_fields_filter/fields_values" [("term", term)]],
       (tp.make_request "/v1/custom_fields_filter/fields_values"
          [("term", term)]).mapError OpError.transport)
    ∧ get_custom_fields_values tp none =
      ([Request.get "/v1/custom_fields_filter/fields_values" []],
       (tp.make_request "/v1/custom_fields_filter/fields_values" []).mapError OpError.transport)
    ∧ get_custom_fields_values tp (some "") =
      ([Request.get "/v1/custom_fields_filter/fields_values" []],
       (tp.make_request "/v1/custom_fields_filter/fields_values" []).mapError OpError.transport) := by
  refine ⟨?_, rfl, ?_⟩
  · simp [get_custom_fields_values, h]
  · simp [get_custom_fields_values]

/-- C3 witness: a concrete non-empty term, the absent term, and the empty
term each yield the stated request. -/
theorem get_values_query_params_witness :
    ("Revenue" ≠ "") ∧
    (get_custom_fields_values demoTransport (some "Revenue")).fst =
      [Request.get "/v1/custom_fields_filter/fields_values" [("term", "Revenue")]] ∧
    (get_custom_fields_values demoTransport none).fst =
      [Request.get "/v1/custom_fields_filter/fields_values" []] ∧
    (get_custom_fields_values demoTransport (some "")).fst =
      [Request.get "/v1/custom_fields_filter/fields_values" []] := by
  have h := get_values_query_params demoTransport "Revenue" (by decide)
  exact ⟨by decide, by rw [h.1], by rw [h.2.1], by rw [h.2.2]⟩

/-- C4: the show-filter operation issues exactly one read request to the
path obtained by interpolating the identifier, with empty parameters and
no body, and returns the decoded response; at identifier abc123 the path
is /v1/custom_fields_filter/abc123. -/
theorem show_filter_single_get {ε : Type} (tp : Transport ε) (filter_id : String) :
    show_custom_fields_filter tp filter_id =
      ([Request.get ("/v1/custom_fields_filter/" ++ filter_id) []],
       (tp.make_request ("/v1/custom_fields_filter/" ++ filter_id) []).mapError OpError.transport)
    ∧ (show_custom_fields_filter tp "abc123").fst =
      [Request.get "/v1/custom_fields_filter/abc123" []] :=
  ⟨rfl, rfl⟩

/-- C5: every element of a parsed array is forwarded verbatim: the body's
custom_fields member is exactly the parsed list, and in particular each
forwarded element's exclude key (absent, or explicitly true) agrees with
the parsed element's. -/
theorem create_filter_forwards_elements_verbatim {ε : Type}
    (jsonLoads : String → Except String Json) (tp : Transport ε)
    (s : String) (elems : List Json)
    (h : jsonLoads s = .ok (Json.arr elems)) :
    forwardedFields (create_custom_fields_filter jsonLoads tp s).fst = some elems
    ∧ ∀ i : Nat,
        (((forwardedFields (create_custom_fields_filter jsonLoads tp s).fst).getD []).get? i).map
            (fun e => e.lookup "exclude")
          = (elems.get? i).map (fun e => e.lookup "exclude") := by
  have hf : forwardedFields (create_custom_fields_filter jsonLoads tp s).fst = some elems := by
    simp [create_custom_fields_filter, h, forwardedFields, Json.lookup, Json.lookup.go]
  exact ⟨hf, fun i => by rw [hf]; rfl⟩

/-- C5 witness: with one specification lacking exclude and one setting it
to true, the forwarded list is exactly the parsed list and the exclude
lookups are preserved (absent stays absent, true stays true). -/
theorem create_filter_forwards_elements_verbatim_witness :
    forwardedFields (create_custom_fields_filter demoLoads demoTransport "fields-in").fst =
      some demoFields
    ∧ Json.lookup (demoFields.getD 0 Json.null) "exclude" = none
    ∧ Json.lookup (demoFields.getD 1 Json.null) "exclude" = some (Json.bool true) := by
  refine ⟨(create_filter_forwards_elements_verbatim demoLoads demoTransport
    "fields-in" demoFields rfl).1, rfl, rfl⟩

/-- C6: when the request facility fails, every operation surfaces exactly
that failure, unchanged, as a transport error; and no operation ever
raises a local ToolError except create on a parse failure (get and show
never do; create never does once parsing succeeded). -/
theorem transport_failures_propagate_unchanged {ε : Type} (tp : Transport ε) (e : ε)
    (hg : ∀ p q, tp.make_request p q = Except.error e)
    (hp : ∀ p b, tp.make_post_request p b = Except.error e) :
    (∀ term, (get_custom_fields_values tp term).snd = .error (.transport e))
    ∧ (∀ filter_id, (show_custom_fields_filter tp filter_id).snd = .error (.transport e))
    ∧ (∀ (jsonLoads : String → Except String Json) s v, jsonLoads s = Except.ok v →
        (create_custom_fields_filter jsonLoads tp s).snd = .error (.transport e))
    ∧ (∀ (tp2 : Transport ε) term msg,
        (get_custom_fields_values tp2 term).snd ≠ .error (.toolError msg))
    ∧ (∀ (tp2 : Transport ε) filter_id msg,
        (show_custom_fields_filter tp2 filter_id).snd ≠ .error (.toolError msg))
    ∧ (∀ (tp2 : Transport ε) (jsonLoads : String → Except String Json) s v msg,
        jsonLoads s = Except.ok v →
        (create_custom_fields_filter jsonLoads tp2 s).snd ≠ .error (.toolError msg)) := by
  refine ⟨fun term => ?_, fun filter_id => ?_, fun jsonLoads s v hv => ?_,
    fun tp2 term msg => ?_, fun tp2 filter_id msg => ?_, fun tp2 jsonLoads s v msg hv => ?_⟩
  · simp [get_custom_fields_values, hg, Except.mapError]
  · simp [show_custom_fields_filter, hg, Except.mapError]
  · simp [create_custom_fields_filter, hv, hp, Except.mapError]
  · simp only [get_custom_fields_values]
    cases tp2.make_request "/v1/custom_fields_filter/fields_values" _ <;>
      simp [Except.mapError]
  · simp only [show_custom_fields_filter]
    cases tp2.make_request ("/v1/custom_fields_filter/" ++ filter_id) [] <;>
      simp [Except.mapError]
  · simp only [create_custom_fields_filter, hv]
    cases tp2.make_post_request "/v1/custom_fields_filter"
        (Json.obj [("custom_fields", v)]) <;>
      simp [Except.mapError]

/-- C6 witness: a transport failing with a concrete error makes each of
the three operations return exactly that error as a transport failure. -/
theorem transport_failures_propagate_unchanged_witness :
    (get_custom_fields_values failTransport (some "Revenue")).snd =
      Except.error (OpError.transport "boom")
    ∧ (show_custom_fields_filter failTransport "abc123").snd =
      Except.error (OpError.transport "boom")
    ∧ (create_custom_fields_filter demoLoads failTransport "fields").snd =
      Except.error (OpError.transport "boom") := by
  have h := transport_failures_propagate_unchanged failTransport "boom"
    (fun _ _ => rfl) (fun _ _ => rfl)
  exact ⟨h.1 (some "Revenue"), h.2.1 "abc123",
    h.2.2.1 demoLoads "fields" (Json.arr demoFields) rfl⟩

/-- C7: one invocation of the registration entry point registers exactly
the three operations, once each, under the CustomFields category, with
the documented name and title pairs. -/
theorem register_tools_names_titles :
    CustomFieldsTools.category = "CustomFields"
    ∧ CustomFieldsTools.register_tools.map (fun r => (r.name, r.title)) =
        [("get_custom_fields_values", "Get Custom Fields Values"),
         ("create_custom_fields_filter", "Create Custom Fields Filter"),
         ("show_custom_fields_filter", "Show Custom Fields Filter")]
    ∧ (CustomFieldsTools.register_tools.map (fun r => r.name)).Nodup := by
  refine ⟨rfl, rfl, ?_⟩
  decide

/-- C8: among the three registrations only the creation operation carries
annotation metadata, and that metadata marks it non-read-only,
non-idempotent, and open-world. -/
theorem create_only_registration_annotated :
    CustomFieldsTools.register_tools.map (fun r => (r.name, r.annots)) =
      [("get_custom_fields_values", none),
       ("create_custom_fields_filter",
         some ⟨some "Create Custom Fields Filter", some false, some false, some true⟩),
       ("show_custom_fields_filter", none)] := rfl

/-- C9: any successfully parsed value, array or not, is forwarded as the
custom_fields member of the write body without any local error: only
syntactic JSON validity is checked, never the array shape. -/
theorem create_filter_accepts_non_array {ε : Type}
    (jsonLoads : String → Except String Json) (tp : Transport ε)
    (s : String) (v : Json) (h : jsonLoads s = .ok v) :
    create_custom_fields_filter jsonLoads tp s =
      ([Request.post "/v1/custom_fields_filter" (Json.obj [("custom_fields", v)])],
       (tp.make_post_request "/v1/custom_fields_filter"
          (Json.obj [("custom_fields", v)])).mapError OpError.transport)
    ∧ ∀ msg, (create_custom_fields_filter jsonLoads tp s).snd ≠ .error (.toolError msg) := by
  constructor
  · simp [create_custom_fields_filter, h]
  · intro msg
    simp only [create_custom_fields_filter, h]
    cases tp.make_post_request "/v1/custom_fields_filter"
        (Json.obj [("custom_fields", v)]) <;>
      simp [Except.mapError]

/-- C9 witness: a parse yielding the scalar 5 is forwarded in the body
and produces no local ToolError. -/
theorem create_filter_accepts_non_array_witness :
    create_custom_fields_filter demoScalarLoads demoTransport "5" =
      ([Request.post "/v1/custom_fields_filter"
          (Json.obj [("custom_fields", Json.num 5)])],
       Except.ok (Json.str "write-response"))
    ∧ (create_custom_fields_filter demoScalarLoads demoTransport "5").snd ≠
        Except.error (OpError.toolError "Invalid JSON for custom_fields: x") := by
  have h := create_filter_accepts_non_array demoScalarLoads demoTransport "5" (Json.num 5) rfl
  exact ⟨by rw [h.1]; rfl, h.2 "Invalid JSON for custom_fields: x"⟩

/-- C10: the show-filter path is the plain string concatenation of the
fixed prefix and the identifier, with no validation or escaping: the
empty identifier yields a trailing slash and a slash or question mark in
the identifier lands in the path verbatim. -/
theorem show_filter_path_is_plain_concatenation {ε : Type} (tp : Transport ε)
    (filter_id : String) :
    (show_custom_fields_filter tp filter_id).fst =
      [Request.get ("/v1/custom_fields_filter/" ++ filter_id) []]
    ∧ (show_custom_fields_filter tp "").fst =
      [Request.get "/v1/custom_fields_filter/" []]
    ∧ (show_custom_fields_filter tp "a/b").fst =
      [Request.get "/v1/custom_fields_filter/a/b" []]
    ∧ (show_custom_fields_filter tp "x?y=1").fst =
      [Request.get "/v1/custom_fields_filter/x?y=1" []] :=
  ⟨rfl, rfl, rfl, rfl⟩

end SensorTower

